import Mathlib

/-!
Verification of the temporal compositing and persistent-change-detection
engine of `deforestation_assessment.js` (a Google Earth Engine pipeline).

Rasters are shallowly embedded as per-pixel validity masks plus per-pixel
rational values; pixels are indexed by `Nat`.  Each definition below is a
direct translation of the corresponding raster operation or pipeline stage
in the source file; Earth Engine primitives (`selfMask`, `unmask(0)`,
`and`, `lt`, `gt`, `eq`, `median`, `mosaic`, `filterDate`, `clip`,
`reduceRegion(sum)`) are modelled by their documented per-pixel semantics.
-/

namespace Deforestation

/-- A raster grid: each pixel (indexed by `Nat`) either holds a rational
value (`valid p = true`) or is masked out (`valid p = false`).  The stored
`value` of a masked pixel is irrelevant to every operation. -/
structure Raster where
  valid : Nat → Bool
  value : Nat → ℚ

/-- A raster tagged with an integer `year` property, as produced by the
annual compositing stages of the source. -/
structure YearRaster where
  year : Int
  img : Raster

/-- A calendar date (year, month, day), the timestamp of one observation. -/
structure Date where
  y : Int
  m : Nat
  d : Nat

/-- A time-stamped observation raster, as delivered by the
validity-filtered observation source. -/
structure Obs where
  date : Date
  img : Raster

/-- Lexicographic `≤` on dates. -/
def dateLe (a b : Date) : Bool :=
  decide (a.y < b.y) ||
    (a.y == b.y && (decide (a.m < b.m) || (a.m == b.m && decide (a.d ≤ b.d))))

/-- Lexicographic `<` on dates. -/
def dateLt (a b : Date) : Bool :=
  decide (a.y < b.y) ||
    (a.y == b.y && (decide (a.m < b.m) || (a.m == b.m && decide (a.d < b.d))))

/-- Earth Engine `filterDate(start, end)`: keeps observations with
`start ≤ t < end` (start inclusive, end EXCLUSIVE, as documented for
`ee.Filter.date`). -/
def filterDate (start stop : Date) (coll : List Obs) : List Obs :=
  coll.filter (fun o => dateLe start o.date && dateLt o.date stop)

/-- The all-invalid sentinel raster, `ee.Image().mask(ee.Image(0))`. -/
def emptyRaster : Raster :=
  { valid := fun _ => false, value := fun _ => 0 }

/-- A constant, everywhere-valid raster, `ee.Image(c)`. -/
def constRaster (c : ℚ) : Raster :=
  { valid := fun _ => true, value := fun _ => c }

/-- `selfMask()`: masks out every pixel whose value is zero. -/
def selfMask (r : Raster) : Raster :=
  { valid := fun p => r.valid p && decide (r.value p ≠ 0),
    value := r.value }

/-- `unmask(0)`: makes every pixel valid, filling masked pixels with 0. -/
def unmask0 (r : Raster) : Raster :=
  { valid := fun _ => true,
    value := fun p => if r.valid p then r.value p else 0 }

/-- Pixel-wise `and`: valid where both operands are valid, value 1 where
both values are non-zero, else 0. -/
def andR (a b : Raster) : Raster :=
  { valid := fun p => a.valid p && b.valid p,
    value := fun p =>
      if a.value p ≠ 0 ∧ b.value p ≠ 0 then 1 else 0 }

/-- Pixel-wise `lt(t)`: value 1 where the value is strictly below `t`. -/
def ltR (r : Raster) (t : ℚ) : Raster :=
  { valid := r.valid, value := fun p => if r.value p < t then 1 else 0 }

/-- Pixel-wise `gt(t)`: value 1 where the value is strictly above `t`. -/
def gtR (r : Raster) (t : ℚ) : Raster :=
  { valid := r.valid, value := fun p => if t < r.value p then 1 else 0 }

/-- Pixel-wise `eq(c)`: value 1 where the value equals `c`. -/
def eqR (r : Raster) (c : ℚ) : Raster :=
  { valid := r.valid, value := fun p => if r.value p = c then 1 else 0 }

/-- Pixel-wise `multiply` by a constant. -/
def multiplyConst (r : Raster) (c : ℚ) : Raster :=
  { valid := r.valid, value := fun p => r.value p * c }

/-- `clip(aoi)`: masks out pixels outside the area of interest. -/
def clip (r : Raster) (aoi : Nat → Bool) : Raster :=
  { valid := fun p => r.valid p && aoi p, value := r.value }

/-- A pixel is *true* in a raster when it is valid and its value is
non-zero (Earth Engine boolean semantics). -/
def rTrue (r : Raster) (p : Nat) : Prop :=
  r.valid p = true ∧ r.value p ≠ 0

instance (r : Raster) (p : Nat) : Decidable (rTrue r p) :=
  inferInstanceAs (Decidable (_ ∧ _))

/-- Insert into a sorted list, by a boolean comparison. -/
def insertB (le : α → α → Bool) (x : α) : List α → List α
  | [] => [x]
  | y :: ys => if le x y then x :: y :: ys else y :: insertB le x ys

/-- Insertion sort by a boolean comparison. -/
def sortB (le : α → α → Bool) : List α → List α
  | [] => []
  | x :: xs => insertB le x (sortB le xs)

/-- Median of a list of rationals: middle element of the sorted list, or
the mean of the two middle elements when the length is even. -/
def medianList (l : List ℚ) : ℚ :=
  let s := sortB (fun a b => decide (a ≤ b)) l
  let n := s.length
  if n % 2 = 1 then s.getD (n / 2) 0
  else (s.getD (n / 2 - 1) 0 + s.getD (n / 2) 0) / 2

/-- The values the rasters of `l` hold at pixel `p`, restricted to rasters
valid there. -/
def valsAt (l : List Raster) (p : Nat) : List ℚ :=
  (l.filter (fun r => r.valid p)).map (fun r => r.value p)

/-- The `median()` collection reducer: per pixel, the median of the values
of the rasters valid there; masked where no raster is valid. -/
def medianRaster (l : List Raster) : Raster :=
  { valid := fun p => !(valsAt l p).isEmpty,
    value := fun p => medianList (valsAt l p) }

@[simp] theorem rTrue_selfMask (r : Raster) (p : Nat) :
    rTrue (selfMask r) p ↔ rTrue r p := by
  simp [rTrue, selfMask, and_assoc, and_comm]

@[simp] theorem rTrue_andR (a b : Raster) (p : Nat) :
    rTrue (andR a b) p ↔ rTrue a p ∧ rTrue b p := by
  by_cases h : a.value p ≠ 0 ∧ b.value p ≠ 0
  · simp [rTrue, andR, h]
  · simp [rTrue, andR, h]; tauto

@[simp] theorem rTrue_unmask0 (r : Raster) (p : Nat) :
    rTrue (unmask0 r) p ↔ rTrue r p := by
  by_cases h : r.valid p
  · simp [rTrue, unmask0, h]
  · simp [rTrue, unmask0, h]

@[simp] theorem rTrue_ltR (r : Raster) (t : ℚ) (p : Nat) :
    rTrue (ltR r t) p ↔ r.valid p = true ∧ r.value p < t := by
  by_cases h : r.value p < t
  · simp [rTrue, ltR, h]
  · simp [rTrue, ltR, h]

@[simp] theorem rTrue_eqR (r : Raster) (c : ℚ) (p : Nat) :
    rTrue (eqR r c) p ↔ r.valid p = true ∧ r.value p = c := by
  by_cases h : r.value p = c
  · simp [rTrue, eqR, h]
  · simp [rTrue, eqR, h]

@[simp] theorem rTrue_constRaster (c : ℚ) (p : Nat) :
    rTrue (constRaster c) p ↔ c ≠ 0 := by
  simp [rTrue, constRaster]

/-- One year of `createAnnualMedianComposite` (the body of its loop,
source lines 64–72): filter the collection to
`[fromYMD(year,1,1), fromYMD(year,12,31))`, and if any image fell in that
window take the pixel-wise median clipped to the AOI, else the all-invalid
sentinel; either way the result carries the `year` tag. -/
def annualComposite (collection : List Obs) (year : Int) (aoi : Nat → Bool) :
    YearRaster :=
  let sel := filterDate ⟨year, 1, 1⟩ ⟨year, 12, 31⟩ collection
  if 0 < sel.length then
    ⟨year, clip (medianRaster (sel.map (·.img))) aoi⟩
  else
    ⟨year, emptyRaster⟩

/-- `createAnnualMedianComposite(collection, startYear, endYear, aoi)`
(source lines 61–76): one composite per year from `startYear` to
`endYear` inclusive. -/
def createAnnualMedianComposite (collection : List Obs)
    (startYear endYear : Int) (aoi : Nat → Bool) : List YearRaster :=
  (List.range (endYear + 1 - startYear).toNat).map
    (fun i => annualComposite collection (startYear + i) aoi)

/-- The baseline restriction
`composites.filter(gte('year',start)).filter(lte('year',end))`
(source lines 87–90). -/
def baselineSubsequence (composites : List YearRaster)
    (baselineStartYear baselineEndYear : Int) : List YearRaster :=
  composites.filter
    (fun yr => decide (baselineStartYear ≤ yr.year) &&
               decide (yr.year ≤ baselineEndYear))

/-- `initialForestMask` (source lines 85–101): restrict the per-year
composites to the baseline year range, take the collection median when the
restriction is non-empty (all-invalid sentinel otherwise), threshold with
strict `gt`, and `selfMask` the result into a binary mask. -/
def initialForestMask (composites : List YearRaster)
    (baselineStartYear baselineEndYear : Int) (forestNdviThreshold : ℚ) :
    Raster :=
  let baselineAnnualNdvi :=
    baselineSubsequence composites baselineStartYear baselineEndYear
  let baselineNdviComposite :=
    if 0 < baselineAnnualNdvi.length then
      medianRaster (baselineAnnualNdvi.map (·.img))
    else emptyRaster
  selfMask (gtR baselineNdviComposite forestNdviThreshold)

/-- `uniqueAnnualNdviComposites` (source lines 105–112): for each distinct
year tag in the merged multi-sensor collection, the pixel-wise median of
all composites carrying that tag, tagged with the year; years are
deduplicated and sorted as in the source. -/
def uniqueAnnualNdviComposites (allComposites : List YearRaster) :
    List YearRaster :=
  (sortB (fun a b => decide (a ≤ b)) (allComposites.map (·.year)).dedup).map
    (fun y =>
      ⟨y, medianRaster
        ((allComposites.filter (fun yr => yr.year == y)).map (·.img))⟩)

/-- `detectDeforestation(currentNdviImage, initialForest, deforestThresh)`
(source lines 114–119): candidate change is
`initialForest.eq(1).and(currentNdvi.lt(thresh))`, self-masked and tagged
with the composite's year. -/
def detectDeforestation (currentNdviImage : YearRaster)
    (initialForest : Raster) (deforestThresh : ℚ) : YearRaster :=
  ⟨currentNdviImage.year,
    selfMask (andR (eqR initialForest 1)
                   (ltR currentNdviImage.img deforestThresh))⟩

/-- One iteration of the persistence loop (source lines 130–143): unmask
both candidates with 0, `and` them when their year tags are exactly one
calendar year apart (a constant-0 image otherwise), then `selfMask` and
tag with the earlier year. -/
def persistentPair (a b : YearRaster) : YearRaster :=
  ⟨a.year,
    selfMask (if b.year - a.year = 1
              then andR (unmask0 a.img) (unmask0 b.img)
              else constRaster 0)⟩

/-- `refinedDeforestationList` (source lines 125–144): the persistence
filter with run length 2, applied to each adjacent pair of the candidate
sequence (`numDeforestationYears - 1` iterations). -/
def refinedDeforestationList : List YearRaster → List YearRaster
  | [] => []
  | [_] => []
  | a :: b :: rest => persistentPair a b :: refinedDeforestationList (b :: rest)

/-- The adjacent pairs `(list[i], list[i+1])` visited by the persistence
loop. -/
def adjPairs : List YearRaster → List (YearRaster × YearRaster)
  | [] => []
  | [_] => []
  | a :: b :: rest => (a, b) :: adjPairs (b :: rest)

/-- `calculateDeforestedArea(image, geometry, scale)` (source lines
149–157): multiply the binary raster by the per-pixel ground-area raster
(`ee.Image.pixelArea()`, square meters), sum the valid cells of the region
(`reduceRegion` with the `sum` reducer, which yields 0 when no cell is
valid), and divide by 10^6 into square kilometers. -/
def calculateDeforestedArea (image : Raster) (pixelArea : Nat → ℚ)
    (region : List Nat) : ℚ :=
  let sqMeters :=
    (region.map (fun p => if image.valid p then image.value p * pixelArea p
                          else 0)).sum
  sqMeters / 1000000

/-- The spec's own words for the area quantifier (§4.5): "multiply the two
rasters, sum valid cells within the region (treating invalid cells as zero
contribution)" with the result "in the ground-area raster's native unit".
Stated separately from `calculateDeforestedArea` so the two can be
compared. -/
def specNativeUnitAreaSum (image : Raster) (pixelArea : Nat → ℚ)
    (region : List Nat) : ℚ :=
  (region.map (fun p => if image.valid p then image.value p * pixelArea p
                        else 0)).sum

/-- `mosaic()`: per pixel, the value of the LAST raster of the collection
that is valid there ("last on top", as documented for
`ee.ImageCollection.mosaic`); masked where no raster is valid. -/
def mosaic (l : List Raster) : Raster :=
  { valid := fun p => l.any (fun r => r.valid p),
    value := fun p =>
      match (l.filter (fun r => r.valid p)).getLast? with
      | some r => r.value p
      | none => 0 }

/-- `yearOfDeforestation` (source lines 176–186): each confirmed raster is
`unmask(0)`-ed and multiplied by its year tag, the results are
`mosaic()`-ed, and the zero pixels are masked off with `selfMask`. -/
def yearOfDeforestation (confirmed : List YearRaster) : Raster :=
  selfMask (mosaic (confirmed.map
    (fun yr => multiplyConst (unmask0 yr.img) (yr.year : ℚ))))

/-! ### Structural lemmas -/

theorem rTrue_persistentPair (a b : YearRaster) (p : Nat) :
    rTrue (persistentPair a b).img p ↔
      b.year - a.year = 1 ∧ rTrue a.img p ∧ rTrue b.img p := by
  by_cases h : b.year - a.year = 1
  · simp [persistentPair, h]
  · simp [persistentPair, h]

theorem refined_eq_map_adjPairs (l : List YearRaster) :
    refinedDeforestationList l =
      (adjPairs l).map (fun ab => persistentPair ab.1 ab.2) := by
  induction l with
  | nil => rfl
  | cons a tl ih =>
    cases tl with
    | nil => rfl
    | cons b rest => simp [refinedDeforestationList, adjPairs, ih]

theorem mem_insertB (le : α → α → Bool) (x a : α) (l : List α) :
    a ∈ insertB le x l ↔ a = x ∨ a ∈ l := by
  induction l with
  | nil => simp [insertB]
  | cons y ys ih =>
    by_cases h : le x y
    · simp [insertB, h]
    · simp [insertB, h, ih]
      tauto

theorem mem_sortB (le : α → α → Bool) (a : α) (l : List α) :
    a ∈ sortB le l ↔ a ∈ l := by
  induction l with
  | nil => simp [sortB]
  | cons x xs ih => simp [sortB, mem_insertB, ih]

theorem binary_selfMask (r : Raster)
    (h : ∀ p, r.value p = 0 ∨ r.value p = 1) (p : Nat)
    (hv : (selfMask r).valid p = true) : (selfMask r).value p = 1 := by
  rcases h p with h0 | h1
  · simp [selfMask, h0] at hv
  · simpa [selfMask] using h1

/-! ### Claim theorems -/

/-- Claim C2: for every ordered candidate sequence with strictly
increasing year tags, the run-length-2 persistence filter confirms a
change at pixel `p` for year `Y` exactly when two consecutive sequence
entries carry year tags `Y` and `Y+1` and both are candidate-true at `p`;
and an adjacent pair whose tags are not exactly one calendar year apart
confirms no pixel at all. -/
theorem persistence_pairwise_calendar_iff (l : List YearRaster) (Y : Int)
    (p : Nat) (hinc : List.Chain' (fun a b => a.year < b.year) l) :
    ((∃ c ∈ refinedDeforestationList l, c.year = Y ∧ rTrue c.img p) ↔
      ∃ ab ∈ adjPairs l, ab.1.year = Y ∧ ab.2.year = Y + 1 ∧
        rTrue ab.1.img p ∧ rTrue ab.2.img p) ∧
    ∀ ab ∈ adjPairs l, ab.2.year - ab.1.year ≠ 1 →
      ∀ q, ¬ rTrue (persistentPair ab.1 ab.2).img q := by
  constructor
  · rw [refined_eq_map_adjPairs]
    constructor
    · rintro ⟨c, hc, hy, ht⟩
      rw [List.mem_map] at hc
      obtain ⟨ab, hab, rfl⟩ := hc
      rw [rTrue_persistentPair] at ht
      obtain ⟨hd, ha, hb⟩ := ht
      have hy1 : ab.1.year = Y := hy
      exact ⟨ab, hab, hy1, by omega, ha, hb⟩
    · rintro ⟨ab, hab, h1, h2, ha, hb⟩
      refine ⟨persistentPair ab.1 ab.2, List.mem_map.mpr ⟨ab, hab, rfl⟩, h1, ?_⟩
      rw [rTrue_persistentPair]
      exact ⟨by omega, ha, hb⟩
  · intro ab _ hdiff q ht
    rw [rTrue_persistentPair] at ht
    exact hdiff ht.1

/-- Claim C4: the change detector is true at a pixel exactly when the
baseline mask is valid-true there and the composite is valid with value
strictly below the detection threshold; wherever the baseline mask is not
true the detector output is false.  The hypothesis states that the
baseline mask stores 1 at its valid pixels, as `initialForestMask`
does. -/
theorem detectDeforestation_iff_baseline_and_below (comp : YearRaster)
    (forest : Raster) (t : ℚ) (p : Nat)
    (hmask : ∀ q, forest.valid q = true → forest.value q = 1) :
    (rTrue (detectDeforestation comp forest t).img p ↔
      rTrue forest p ∧ comp.img.valid p = true ∧ comp.img.value p < t) ∧
    (¬ rTrue forest p → ¬ rTrue (detectDeforestation comp forest t).img p) := by
  have h1 : rTrue (detectDeforestation comp forest t).img p ↔
      (forest.valid p = true ∧ forest.value p = 1) ∧
        comp.img.valid p = true ∧ comp.img.value p < t := by
    simp [detectDeforestation, and_assoc]
  constructor
  · rw [h1]
    constructor
    · rintro ⟨⟨hv, he⟩, h2⟩
      refine ⟨⟨hv, by rw [he]; norm_num⟩, h2⟩
    · rintro ⟨⟨hv, _⟩, h2⟩
      exact ⟨⟨hv, hmask p hv⟩, h2⟩
  · intro hnf ht
    rw [h1] at ht
    exact hnf ⟨ht.1.1, by rw [ht.1.2]; norm_num⟩

/-- Claim C5: a year whose date window holds no valid observation yields
the all-invalid sentinel composite, and downstream the change detector
produces no candidate there and the persistence filter produces no
confirmation from it (in either pair position), with no error raised
(every stage is total). -/
theorem empty_year_degrades_all_false (collection : List Obs) (Y : Int)
    (aoi : Nat → Bool) (p : Nat) (forest : Raster) (t : ℚ)
    (other : YearRaster)
    (hempty : ∀ o ∈ filterDate ⟨Y, 1, 1⟩ ⟨Y, 12, 31⟩ collection,
      ∀ q, o.img.valid q = false) :
    (annualComposite collection Y aoi).img.valid p = false ∧
    ¬ rTrue (detectDeforestation (annualComposite collection Y aoi)
        forest t).img p ∧
    ¬ rTrue (persistentPair
        (detectDeforestation (annualComposite collection Y aoi) forest t)
        other).img p ∧
    ¬ rTrue (persistentPair other
        (detectDeforestation (annualComposite collection Y aoi)
          forest t)).img p := by
  have hval : (annualComposite collection Y aoi).img.valid p = false := by
    unfold annualComposite
    by_cases h : 0 < (filterDate ⟨Y, 1, 1⟩ ⟨Y, 12, 31⟩ collection).length
    · have hnil : valsAt
          ((filterDate ⟨Y, 1, 1⟩ ⟨Y, 12, 31⟩ collection).map (·.img)) p
          = [] := by
        unfold valsAt
        rw [List.map_eq_nil_iff]
        rw [List.filter_eq_nil_iff]
        intro r hr
        rw [List.mem_map] at hr
        obtain ⟨o, ho, rfl⟩ := hr
        simp [hempty o ho]
      simp [h, clip, medianRaster, hnil]
    · simp [h, emptyRaster]
  have hdet : ¬ rTrue (detectDeforestation (annualComposite collection Y aoi)
      forest t).img p := by
    simp [detectDeforestation, hval]
  refine ⟨hval, hdet, ?_, ?_⟩
  · exact fun ht => hdet ((rTrue_persistentPair _ _ _).mp ht).2.1
  · exact fun ht => hdet ((rTrue_persistentPair _ _ _).mp ht).2.2

/-- Claim C6: the baseline mask is valid (and then stores 1, i.e. is
valid-true) exactly at pixels that have some valid baseline data and whose
median baseline aggregate is strictly above the threshold; in particular a
baseline sub-sequence with no valid data at all yields the all-invalid
mask. -/
theorem initialForestMask_valid_iff_median_above (composites : List YearRaster)
    (sy ey : Int) (t : ℚ) (p : Nat) :
    ((initialForestMask composites sy ey t).valid p = true ↔
      valsAt ((baselineSubsequence composites sy ey).map (·.img)) p ≠ [] ∧
        t < medianList
          (valsAt ((baselineSubsequence composites sy ey).map (·.img)) p)) ∧
    (rTrue (initialForestMask composites sy ey t) p ↔
      (initialForestMask composites sy ey t).valid p = true) ∧
    ((initialForestMask composites sy ey t).valid p = true →
      (initialForestMask composites sy ey t).value p = 1) := by
  have hdef : initialForestMask composites sy ey t =
      selfMask (gtR
        (if 0 < (baselineSubsequence composites sy ey).length then
          medianRaster ((baselineSubsequence composites sy ey).map (·.img))
        else emptyRaster) t) := rfl
  rw [hdef]
  by_cases h : 0 < (baselineSubsequence composites sy ey).length
  · rw [if_pos h]
    by_cases hm : t < medianList
        (valsAt ((baselineSubsequence composites sy ey).map (·.img)) p)
    · refine ⟨?_, ?_, ?_⟩ <;>
        simp [selfMask, gtR, medianRaster, rTrue, hm, List.isEmpty_iff]
    · refine ⟨?_, ?_, ?_⟩ <;>
        simp [selfMask, gtR, medianRaster, rTrue, hm, List.isEmpty_iff]
  · have hnil : baselineSubsequence composites sy ey = [] := by
      rw [← List.length_eq_zero]
      omega
    rw [if_neg h]
    refine ⟨?_, ?_, ?_⟩ <;>
      simp [selfMask, gtR, emptyRaster, rTrue, hnil, valsAt]

/-- Claim C7: the area quantifier returns exactly zero on any raster none
of whose valid pixels stores a non-zero value — covering both the
raster with no valid pixels (the no-data sentinel) and the all-false
raster. -/
theorem calculateDeforestedArea_allfalse_eq_zero (image : Raster)
    (pixelArea : Nat → ℚ) (region : List Nat)
    (h : ∀ p, image.valid p = true → image.value p = 0) :
    calculateDeforestedArea image pixelArea region = 0 := by
  unfold calculateDeforestedArea
  have hz : ∀ x ∈ region.map
      (fun p => if image.valid p then image.value p * pixelArea p else 0),
      x = 0 := by
    intro x hx
    rw [List.mem_map] at hx
    obtain ⟨p, _, rfl⟩ := hx
    by_cases hv : image.valid p
    · simp [hv, h p hv]
    · simp [hv]
  rw [List.sum_eq_zero hz]
  norm_num

/-- Claim C8 (counterexample): on a region of one valid pixel storing 1
whose ground area is 2000000 (square meters, the native unit of
`ee.Image.pixelArea`), the quantifier returns 2, not the native-unit sum
2000000 — it converts to square kilometers inside every call. -/
theorem calculateDeforestedArea_unit_counterexample :
    calculateDeforestedArea ⟨fun p => p == 0, fun _ => 1⟩
        (fun _ => 2000000) [0] = 2 ∧
    specNativeUnitAreaSum ⟨fun p => p == 0, fun _ => 1⟩
        (fun _ => 2000000) [0] = 2000000 ∧
    (2 : ℚ) ≠ 2000000 := by
  refine ⟨?_, ?_, by norm_num⟩
  · norm_num [calculateDeforestedArea]
  · norm_num [specNativeUnitAreaSum]

/-- Claim C8 (amended): the area quantifier returns the sum over valid
cells of the region of the product of the binary raster and the
ground-area raster (invalid cells contributing zero), divided by 10^6 —
i.e. converted from the ground-area raster's native square meters to
square kilometers inside the quantifier on each call. -/
theorem calculateDeforestedArea_eq_native_sum_div (image : Raster)
    (pixelArea : Nat → ℚ) (region : List Nat) :
    calculateDeforestedArea image pixelArea region =
      specNativeUnitAreaSum image pixelArea region / 1000000 := rfl

/-- Claim C9: a year tag occurring more than once in the merged
multi-sensor composite collection is resolved to a single analysis
composite: the unique output composite carrying that tag is exactly the
pixel-wise median of all per-sensor composites carrying it (valid where
any of them is valid). -/
theorem uniqueAnnualNdviComposites_median_of_year
    (allComposites : List YearRaster) (y : Int)
    (hmulti : 2 ≤ (allComposites.map (·.year)).count y) :
    ∃ c ∈ uniqueAnnualNdviComposites allComposites,
      c.year = y ∧
      c.img = medianRaster
        ((allComposites.filter (fun yr => yr.year == y)).map (·.img)) ∧
      (∀ c2 ∈ uniqueAnnualNdviComposites allComposites, c2.year = y →
        c2 = c) ∧
      ∀ p,
        c.img.value p = medianList
          (valsAt ((allComposites.filter (fun yr => yr.year == y)).map
            (·.img)) p) ∧
        (c.img.valid p = true ↔
          valsAt ((allComposites.filter (fun yr => yr.year == y)).map
            (·.img)) p ≠ []) := by
  have hy : y ∈ allComposites.map (·.year) := by
    apply List.count_pos_iff.mp
    omega
  have hy2 : y ∈ sortB (fun a b => decide (a ≤ b))
      (allComposites.map (·.year)).dedup := by
    rw [mem_sortB, List.mem_dedup]
    exact hy
  refine ⟨⟨y, medianRaster
      ((allComposites.filter (fun yr => yr.year == y)).map (·.img))⟩,
    ?_, rfl, rfl, ?_, ?_⟩
  · unfold uniqueAnnualNdviComposites
    exact List.mem_map.mpr ⟨y, hy2, rfl⟩
  · intro c2 hc2 hyc2
    unfold uniqueAnnualNdviComposites at hc2
    rw [List.mem_map] at hc2
    obtain ⟨y', _, rfl⟩ := hc2
    have : y' = y := hyc2
    subst this
    rfl
  · intro p
    refine ⟨rfl, ?_⟩
    simp [medianRaster, List.isEmpty_iff]

/-- Claim C10: the binary rasters the pipeline produces — the baseline
forest mask, each per-year candidate-change raster, and each
confirmed-change raster — store the value 1 at every valid pixel, so
falsehood is represented only by masked pixels, never by a stored 0. -/
theorem pipeline_binary_rasters_store_one (composites : List YearRaster)
    (sy ey : Int) (bt : ℚ) (comp : YearRaster) (forest : Raster) (dt : ℚ)
    (a b : YearRaster) :
    (∀ p, (initialForestMask composites sy ey bt).valid p = true →
      (initialForestMask composites sy ey bt).value p = 1) ∧
    (∀ p, (detectDeforestation comp forest dt).img.valid p = true →
      (detectDeforestation comp forest dt).img.value p = 1) ∧
    (∀ p, (persistentPair a b).img.valid p = true →
      (persistentPair a b).img.value p = 1) := by
  refine ⟨?_, ?_, ?_⟩
  · intro p
    apply binary_selfMask
    intro q
    by_cases h : bt < (if 0 < (baselineSubsequence composites sy ey).length
        then medianRaster ((baselineSubsequence composites sy ey).map
          (·.img))
        else emptyRaster).value q
    · right; simp [gtR, h]
    · left; simp [gtR, h]
  · intro p
    apply binary_selfMask
    intro q
    by_cases h : (eqR forest 1).value q ≠ 0 ∧
        (ltR comp.img dt).value q ≠ 0
    · right; simp [andR, h]
    · left; simp [andR, h]
  · intro p
    apply binary_selfMask
    intro q
    by_cases hd : b.year - a.year = 1
    · by_cases h : (unmask0 a.img).value q ≠ 0 ∧
          (unmask0 b.img).value q ≠ 0
      · right; simp [persistentPair, hd, andR, h]
      · left; simp [persistentPair, hd, andR, h]
    · left; simp [persistentPair, hd, constRaster]

/-- Claim C1 (code evaluation): with confirmed rasters for 1991 (true at
pixels 0 and 1) and 1992 (true at pixel 1 only), the first-occurrence
raster built by the code is invalid at pixel 0 — although pixel 0 is
valid-true in the 1991 raster, so the claim demands value 1991 there —
and holds 1992 at pixel 1, although the earliest confirming year there is
1991.  The cause: every layer is `unmask(0)`-ed before `mosaic()`, and
`mosaic` stacks the LAST image on top, so the output is just the final
year's layer. -/
theorem yearOfDeforestation_keeps_last_layer :
    rTrue (⟨fun p => decide (p ≤ 1), fun _ => 1⟩ : Raster) 0 ∧
    rTrue (⟨fun p => decide (p ≤ 1), fun _ => 1⟩ : Raster) 1 ∧
    rTrue (⟨fun p => p == 1, fun _ => 1⟩ : Raster) 1 ∧
    ¬ rTrue (⟨fun p => p == 1, fun _ => 1⟩ : Raster) 0 ∧
    (yearOfDeforestation
      [⟨1991, ⟨fun p => decide (p ≤ 1), fun _ => 1⟩⟩,
       ⟨1992, ⟨fun p => p == 1, fun _ => 1⟩⟩]).valid 0 = false ∧
    (yearOfDeforestation
      [⟨1991, ⟨fun p => decide (p ≤ 1), fun _ => 1⟩⟩,
       ⟨1992, ⟨fun p => p == 1, fun _ => 1⟩⟩]).valid 1 = true ∧
    (yearOfDeforestation
      [⟨1991, ⟨fun p => decide (p ≤ 1), fun _ => 1⟩⟩,
       ⟨1992, ⟨fun p => p == 1, fun _ => 1⟩⟩]).value 1 = 1992 := by
  norm_num [rTrue, yearOfDeforestation, selfMask, mosaic, multiplyConst,
    unmask0, List.filter, List.getLast?]

/-- Claim C3 (code evaluation): a single valid observation dated
December 31 of the target year — inside the calendar year, so the claim
demands the non-empty branch, whose median is valid with the observed
value — is dropped by `filterDate(fromYMD(y,1,1), fromYMD(y,12,31))`
(end-exclusive), so the compositor returns the all-invalid sentinel;
an observation dated December 30 is kept. -/
theorem annualComposite_excludes_dec31 :
    (annualComposite [⟨⟨2000, 12, 31⟩, ⟨fun _ => true, fun _ => 1⟩⟩] 2000
      (fun _ => true)).img.valid 0 = false ∧
    (medianRaster [(⟨fun _ => true, fun _ => 1⟩ : Raster)]).valid 0 = true ∧
    (medianRaster [(⟨fun _ => true, fun _ => 1⟩ : Raster)]).value 0 = 1 ∧
    dateLe ⟨2000, 1, 1⟩ ⟨2000, 12, 31⟩ = true ∧
    (annualComposite [⟨⟨2000, 12, 30⟩, ⟨fun _ => true, fun _ => 1⟩⟩] 2000
      (fun _ => true)).img.valid 0 = true := by
  decide

/-! ### Concrete rasters for witnesses -/

/-- An everywhere-valid raster storing 1. -/
def oneR : Raster := ⟨fun _ => true, fun _ => 1⟩

/-- An everywhere-valid raster storing 0. -/
def zeroValR : Raster := ⟨fun _ => true, fun _ => 0⟩

/-! ### Witnesses -/

/-- Witness for claim C2 at the candidate sequence 1991, 1992 (both true
everywhere) and pixel 0. -/
theorem persistence_pairwise_calendar_iff_witness :
    List.Chain' (fun a b : YearRaster => a.year < b.year)
      [⟨1991, oneR⟩, ⟨1992, oneR⟩] ∧
    (((∃ c ∈ refinedDeforestationList [⟨1991, oneR⟩, ⟨1992, oneR⟩],
        c.year = 1991 ∧ rTrue c.img 0) ↔
      ∃ ab ∈ adjPairs [⟨1991, oneR⟩, ⟨1992, oneR⟩],
        ab.1.year = 1991 ∧ ab.2.year = 1991 + 1 ∧
        rTrue ab.1.img 0 ∧ rTrue ab.2.img 0) ∧
    ∀ ab ∈ adjPairs [⟨1991, oneR⟩, ⟨1992, oneR⟩],
      ab.2.year - ab.1.year ≠ 1 →
      ∀ q, ¬ rTrue (persistentPair ab.1 ab.2).img q) := by
  have hch : List.Chain' (fun a b : YearRaster => a.year < b.year)
      [⟨1991, oneR⟩, ⟨1992, oneR⟩] := by
    norm_num [List.chain'_cons]
  exact ⟨hch, persistence_pairwise_calendar_iff _ 1991 0 hch⟩

/-- Witness for claim C4 at an all-true baseline mask, an all-zero 1991
composite, threshold 1 and pixel 0. -/
theorem detectDeforestation_iff_baseline_and_below_witness :
    (∀ q, oneR.valid q = true → oneR.value q = 1) ∧
    ((rTrue (detectDeforestation ⟨1991, zeroValR⟩ oneR 1).img 0 ↔
      rTrue oneR 0 ∧ zeroValR.valid 0 = true ∧ zeroValR.value 0 < 1) ∧
    (¬ rTrue oneR 0 →
      ¬ rTrue (detectDeforestation ⟨1991, zeroValR⟩ oneR 1).img 0)) := by
  have hmask : ∀ q, oneR.valid q = true → oneR.value q = 1 := fun q _ => rfl
  exact ⟨hmask,
    detectDeforestation_iff_baseline_and_below ⟨1991, zeroValR⟩ oneR 1 0 hmask⟩

/-- Witness for claim C5 at the empty observation collection, year 1995
and pixel 0. -/
theorem empty_year_degrades_all_false_witness :
    (∀ o ∈ filterDate ⟨1995, 1, 1⟩ ⟨1995, 12, 31⟩ ([] : List Obs),
      ∀ q, o.img.valid q = false) ∧
    ((annualComposite [] 1995 (fun _ => true)).img.valid 0 = false ∧
    ¬ rTrue (detectDeforestation (annualComposite [] 1995 (fun _ => true))
        oneR 1).img 0 ∧
    ¬ rTrue (persistentPair
        (detectDeforestation (annualComposite [] 1995 (fun _ => true)) oneR 1)
        ⟨1996, oneR⟩).img 0 ∧
    ¬ rTrue (persistentPair ⟨1996, oneR⟩
        (detectDeforestation (annualComposite [] 1995 (fun _ => true))
          oneR 1)).img 0) := by
  have hempty : ∀ o ∈ filterDate ⟨1995, 1, 1⟩ ⟨1995, 12, 31⟩
      ([] : List Obs), ∀ q, o.img.valid q = false := by
    intro o ho
    simp [filterDate] at ho
  exact ⟨hempty,
    empty_year_degrades_all_false [] 1995 (fun _ => true) 0 oneR 1
      ⟨1996, oneR⟩ hempty⟩

/-- Witness for claim C6: at a one-year baseline of an all-one composite
with threshold 0, the mask is valid at pixel 0 and stores 1 there. -/
theorem initialForestMask_valid_iff_median_above_witness :
    (initialForestMask [⟨1985, oneR⟩] 1984 1990 0).valid 0 = true ∧
    (initialForestMask [⟨1985, oneR⟩] 1984 1990 0).value 0 = 1 := by
  have h := initialForestMask_valid_iff_median_above [⟨1985, oneR⟩]
    1984 1990 0 0
  have hv : (initialForestMask [⟨1985, oneR⟩] 1984 1990 0).valid 0 = true := by
    decide
  exact ⟨hv, h.2.2 hv⟩

/-- Witness for claim C7 at the all-invalid sentinel raster and a
three-pixel region. -/
theorem calculateDeforestedArea_allfalse_eq_zero_witness :
    (∀ p, emptyRaster.valid p = true → emptyRaster.value p = 0) ∧
    calculateDeforestedArea emptyRaster (fun _ => 900) [0, 1, 2] = 0 := by
  have h : ∀ p, emptyRaster.valid p = true → emptyRaster.value p = 0 := by
    intro p hp
    simp [emptyRaster] at hp
  exact ⟨h,
    calculateDeforestedArea_allfalse_eq_zero emptyRaster (fun _ => 900)
      [0, 1, 2] h⟩

/-- Witness for claim C9 at a merged collection holding two composites
tagged 2013. -/
theorem uniqueAnnualNdviComposites_median_of_year_witness :
    2 ≤ (([⟨2013, oneR⟩, ⟨2013, zeroValR⟩] : List YearRaster).map
      (·.year)).count 2013 ∧
    ∃ c ∈ uniqueAnnualNdviComposites [⟨2013, oneR⟩, ⟨2013, zeroValR⟩],
      c.year = 2013 ∧
      c.img = medianRaster
        ((([⟨2013, oneR⟩, ⟨2013, zeroValR⟩] : List YearRaster).filter
          (fun yr => yr.year == 2013)).map (·.img)) ∧
      (∀ c2 ∈ uniqueAnnualNdviComposites [⟨2013, oneR⟩, ⟨2013, zeroValR⟩],
        c2.year = 2013 → c2 = c) ∧
      ∀ p,
        c.img.value p = medianList
          (valsAt ((([⟨2013, oneR⟩, ⟨2013, zeroValR⟩] :
            List YearRaster).filter (fun yr => yr.year == 2013)).map
            (·.img)) p) ∧
        (c.img.valid p = true ↔
          valsAt ((([⟨2013, oneR⟩, ⟨2013, zeroValR⟩] :
            List YearRaster).filter (fun yr => yr.year == 2013)).map
            (·.img)) p ≠ []) := by
  refine ⟨by decide, ?_⟩
  exact uniqueAnnualNdviComposites_median_of_year
    [⟨2013, oneR⟩, ⟨2013, zeroValR⟩] 2013 (by decide)

/-- Witness for claim C10: concrete valid pixels of the three rasters all
store 1. -/
theorem pipeline_binary_rasters_store_one_witness :
    (initialForestMask [⟨1985, oneR⟩] 1984 1990 0).value 0 = 1 ∧
    (detectDeforestation ⟨1991, zeroValR⟩ oneR 1).img.value 0 = 1 ∧
    (persistentPair ⟨1991, oneR⟩ ⟨1992, oneR⟩).img.value 0 = 1 := by
  have h := pipeline_binary_rasters_store_one [⟨1985, oneR⟩] 1984 1990 0
    ⟨1991, zeroValR⟩ oneR 1 ⟨1991, oneR⟩ ⟨1992, oneR⟩
  exact ⟨h.1 0 (by decide), h.2.1 0 (by decide), h.2.2 0 (by decide)⟩

end Deforestation
